import Mathlib

/-!
Verification of the Guava media catalog server (Rust, tide + mongodb)
against its natural-language specification.

The development shallowly embeds the two source files, src/main.rs and
src/service/content_service.rs, as executable Lean definitions:
* the serde_json value space as a small inductive JSON type,
* the data model structs (PlaylistContent, GuavaPlaylist, Content) and the
  GuavaContentType enum, together with the serialization the serde derive
  produces for them,
* the response envelope (generate_response) and the request handlers
  (list_playlist, download_asset, get_hash_of_content) with the mongodb
  collection modelled as a list of decoded documents plus an explicit
  backend-success flag, and the filesystem as a partial map from paths to
  byte lists.
-/

set_option autoImplicit false

namespace Guava

/-- Model of the serde_json value space (serde_json::Value). -/
inductive Json where
  | null : Json
  | bool (b : Bool) : Json
  | num (n : Nat) : Json
  | str (s : String) : Json
  | arr (xs : List Json) : Json
  | obj (fields : List (String × Json)) : Json

/-- Field lookup on a JSON object; none when the value is not an object
or lacks the key.  Models map access on a serde_json object. -/
def Json.getField : Json → String → Option Json
  | .obj fields, k => fields.lookup k
  | _, _ => none

/-- Models tide StatusCode.is_success(): the status class is 2xx. -/
def StatusCode.is_success (c : Nat) : Bool :=
  200 ≤ c && c < 300

/-- A response body: structured JSON (the envelope path) or raw bytes
(the streaming download path via Body.from_file). -/
inductive ResponseBody where
  | json (j : Json) : ResponseBody
  | bytes (b : List Nat) : ResponseBody

/-- An HTTP response as the handlers build it: transport status code
plus body. -/
structure Response where
  status : Nat
  body : ResponseBody

/-- Embeds generate_response from src/main.rs (lines 38-53): a map is
built with a success key derived from the status code; on success a
result key holds the payload (default empty object), otherwise an error
key holds the message (default Internal Server Error).  The map becomes
the JSON body and the response carries the given status code. -/
def generate_response (status_code : Nat) (result : Option Json)
    (error : Option String) : Response :=
  let m : List (String × Json) :=
    [("success", Json.bool (StatusCode.is_success status_code))]
  let m :=
    if StatusCode.is_success status_code then
      m ++ [("result", result.getD (Json.obj []))]
    else
      m ++ [("error", Json.str (error.getD "Internal Server Error"))]
  { status := status_code, body := ResponseBody.json (Json.obj m) }

/-- The success field of the JSON body of a response, when present. -/
def Response.bodySuccess (r : Response) : Option Json :=
  match r.body with
  | ResponseBody.json j => j.getField "success"
  | ResponseBody.bytes _ => none

/-- The result field of the JSON body of a response, when present. -/
def Response.bodyResult (r : Response) : Option Json :=
  match r.body with
  | ResponseBody.json j => j.getField "result"
  | ResponseBody.bytes _ => none

/-- The error field of the JSON body of a response, when present. -/
def Response.bodyError (r : Response) : Option Json :=
  match r.body with
  | ResponseBody.json j => j.getField "error"
  | ResponseBody.bytes _ => none

/-- Embeds GuavaContentType from src/service/content_service.rs
(lines 9-15): a closed enumeration with variants None, Sound, Video and
repr(u32) discriminants 0, 1, 2. -/
inductive GuavaContentType where
  | None : GuavaContentType
  | Sound : GuavaContentType
  | Video : GuavaContentType
deriving DecidableEq

/-- The repr(u32) discriminant of each variant, as declared in the
source (None = 0, Sound = 1, Video = 2).  This is the in-memory
representation only; serde does not consult it. -/
def GuavaContentType.reprDiscriminant : GuavaContentType → Nat
  | .None => 0
  | .Sound => 1
  | .Video => 2

/-- The serialization the derived serde Serialize impl produces for a
unit-variant enum: the variant name as a string (serialize_unit_variant,
which serde_json and bson render as the name).  The repr(u32) attribute
does not change this; serde_repr is not used in the source. -/
def GuavaContentType.serdeSerialize : GuavaContentType → Json
  | .None => Json.str "None"
  | .Sound => Json.str "Sound"
  | .Video => Json.str "Video"

/-- The deserialization the derived serde Deserialize impl performs for
a unit-variant enum: accept exactly one of the variant name strings,
fail on anything else (serde reports an unknown-variant or type error;
modelled as Except.error). -/
def GuavaContentType.serdeDeserialize (j : Json) :
    Except Unit GuavaContentType :=
  match j with
  | Json.str s =>
      if s = "None" then Except.ok GuavaContentType.None
      else if s = "Sound" then Except.ok GuavaContentType.Sound
      else if s = "Video" then Except.ok GuavaContentType.Video
      else Except.error ()
  | _ => Except.error ()

/-- Embeds PlaylistContent from src/main.rs (lines 24-29). -/
structure PlaylistContent where
  name : String
  content_type : GuavaContentType
  content_id : String
deriving DecidableEq

/-- Embeds GuavaPlaylist from src/main.rs (lines 31-36); content is an
Option over an ordered list of entries. -/
structure GuavaPlaylist where
  name : String
  identifier : String
  content : Option (List PlaylistContent)
deriving DecidableEq

/-- The serialization the derived serde Serialize impl produces for
PlaylistContent: an object with the declared fields in order. -/
def PlaylistContent.toJson (pc : PlaylistContent) : Json :=
  Json.obj
    [("name", Json.str pc.name),
     ("content_type", pc.content_type.serdeSerialize),
     ("content_id", Json.str pc.content_id)]

/-- The serialization the derived serde Serialize impl produces for
GuavaPlaylist: an object with all three declared fields; an Option field
serializes as null when absent and as the inner array when present
(no skip_serializing_if attribute appears in the source). -/
def GuavaPlaylist.toJson (p : GuavaPlaylist) : Json :=
  Json.obj
    [("name", Json.str p.name),
     ("identifier", Json.str p.identifier),
     ("content",
       match p.content with
       | Option.none => Json.null
       | Option.some cs => Json.arr (cs.map PlaylistContent.toJson))]

/-- Embeds the Content struct from src/service/content_service.rs
(lines 17-22): one content catalog row. -/
structure Content where
  content_id : String
  content_type : GuavaContentType
  hash : String
deriving DecidableEq

/-- Models mongodb Collection.find_one with the filter doc mapping
content_id to the requested id on the content collection: the backing
collection is a list of decoded Content documents, backendOk records
whether the query round trip itself succeeds, and on success the first
document matching the filter (in store order) is returned, if any. -/
def find_one (backendOk : Bool) (coll : List Content) (id : String) :
    Except Unit (Option Content) :=
  if backendOk then
    Except.ok (coll.find? fun c => c.content_id == id)
  else
    Except.error ()

/-- Embeds ContentService.get_hash_from_id from
src/service/content_service.rs (lines 31-45): match on the find_one
outcome; a found document yields Ok of its hash field, a successful
query with no match yields Err, a failed query yields Err. -/
def get_hash_from_id (backendOk : Bool) (coll : List Content)
    (id : String) : Except Unit String :=
  match find_one backendOk coll id with
  | Except.ok (Option.some content_unwrapped) => Except.ok content_unwrapped.hash
  | Except.ok Option.none => Except.error ()
  | Except.error _ => Except.error ()

/-- Models futures TryStreamExt.try_collect over the cursor of decoded
playlist documents: the stream is a list of per-item outcomes; collection
stops at the first error, discarding every item already read. -/
def tryCollect : List (Except Unit GuavaPlaylist) →
    Except Unit (List GuavaPlaylist)
  | [] => Except.ok []
  | Except.ok p :: rest => (tryCollect rest).map (fun l => p :: l)
  | Except.error e :: _ => Except.error e

/-- Embeds list_playlist from src/main.rs (lines 58-66): collect the
find cursor with try_collect, fall back to the empty vector on error
(unwrap_or_else), and wrap the serde serialization of the resulting
playlist vector in a 200 envelope. -/
def list_playlist (stream : List (Except Unit GuavaPlaylist)) : Response :=
  let playlists := (tryCollect stream).toOption.getD []
  generate_response 200
    (Option.some (Json.arr (playlists.map GuavaPlaylist.toJson)))
    Option.none

/-- Embeds download_asset from src/main.rs (lines 68-80): resolve the
id to a hash via the content service; on success open the file at the
path content/ prefixed to the hash (Body.from_file, modelled by the
partial map fs) and stream its bytes with status 200; if the file open
fails, or the hash resolution fails, answer a 404 envelope with the
error message file not found. -/
def download_asset (backendOk : Bool) (coll : List Content)
    (fs : String → Option (List Nat)) (id : String) : Response :=
  match get_hash_from_id backendOk coll id with
  | Except.ok hash =>
      match fs ("content/" ++ hash) with
      | Option.some body => { status := 200, body := ResponseBody.bytes body }
      | Option.none =>
          generate_response 404 Option.none (Option.some "file not found")
  | Except.error _ =>
      generate_response 404 Option.none (Option.some "file not found")

/-- Embeds get_hash_of_content from src/main.rs (lines 82-89): resolve
the id to a hash; success wraps the hash string in a 200 envelope,
failure answers a 404 envelope with the message content not found. -/
def get_hash_of_content (backendOk : Bool) (coll : List Content)
    (id : String) : Response :=
  match get_hash_from_id backendOk coll id with
  | Except.ok hash =>
      generate_response 200 (Option.some (Json.str hash)) Option.none
  | Except.error _ =>
      generate_response 404 Option.none (Option.some "content not found")

/-- Modelled from the spec: the playlist-contents handler for
GET /playlist/:identifier/content is not present under src (no such
route is registered in main).  Following spec sections 4.3, 6 and
Scenario B: an exact-match lookup by identifier returns the full
playlist document in a 200 envelope when found; a query that succeeds
with zero results maps to a 204 envelope (no content, not a hard
error); a query that itself errors maps to a 500 envelope. -/
def get_playlist_content (backendOk : Bool)
    (playlists : List GuavaPlaylist) (ident : String) : Response :=
  if backendOk then
    match playlists.find? (fun p => p.identifier == ident) with
    | Option.some p =>
        generate_response 200 (Option.some p.toJson) Option.none
    | Option.none => generate_response 204 Option.none Option.none
  else
    generate_response 500 Option.none Option.none

/-- The envelope always reports the status class in its success field. -/
theorem bodySuccess_envelope (c : Nat) (r : Option Json) (e : Option String) :
    (generate_response c r e).bodySuccess
        = some (Json.bool (StatusCode.is_success c)) := by
  by_cases h : StatusCode.is_success c
  · simp [generate_response, Response.bodySuccess, Json.getField, h, List.lookup]
  · simp [generate_response, Response.bodySuccess, Json.getField, h, List.lookup]

/-- On a success status the envelope carries the payload (default empty
object) in its result field. -/
theorem bodyResult_envelope_ok (c : Nat) (r : Option Json) (e : Option String)
    (h : StatusCode.is_success c = true) :
    (generate_response c r e).bodyResult = some (r.getD (Json.obj [])) := by
  simp [generate_response, Response.bodyResult, Json.getField, h, List.lookup]

/-- On a failure status the envelope carries the message (default
Internal Server Error) in its error field. -/
theorem bodyError_envelope_fail (c : Nat) (r : Option Json) (e : Option String)
    (h : StatusCode.is_success c = false) :
    (generate_response c r e).bodyError
        = some (Json.str (e.getD "Internal Server Error")) := by
  simp [generate_response, Response.bodyError, Json.getField, h, List.lookup]

/-- The envelope transports exactly the status code it was built from. -/
theorem status_envelope (c : Nat) (r : Option Json) (e : Option String) :
    (generate_response c r e).status = c := rfl

/-- A stream holding an error makes try_collect fail as a whole,
discarding every item already read. -/
theorem tryCollect_error_of_mem (stream : List (Except Unit GuavaPlaylist))
    (h : Except.error () ∈ stream) : tryCollect stream = Except.error () := by
  induction stream with
  | nil => cases h
  | cons hd tl ih =>
      cases hd with
      | ok p =>
          have htl : Except.error () ∈ tl := by
            rcases List.mem_cons.mp h with h0 | h0
            · simp at h0
            · exact h0
          simp [tryCollect, ih htl, Except.map]
      | error e => cases e; simp [tryCollect]

end Guava

namespace Guava

/-- C1: for every status code and every combination of optional result
payload and optional error message, the envelope built by
generate_response carries a success field equal to is_success of the
status, and the response transports exactly that status code, so the
envelope and the transport status never disagree about success. -/
theorem generate_response_success_consistent (status_code : Nat)
    (result : Option Json) (error : Option String) :
    (generate_response status_code result error).bodySuccess
        = some (Json.bool (StatusCode.is_success status_code))
    ∧ (generate_response status_code result error).status = status_code := by
  refine ⟨?_, rfl⟩
  by_cases h : StatusCode.is_success status_code
  · simp [generate_response, Response.bodySuccess, Json.getField, h, List.lookup]
  · simp [generate_response, Response.bodySuccess, Json.getField, h, List.lookup]

/-- C2: evaluating the catalog listing on a concrete store shows that
the transmitted body does include a content field for every playlist:
the serde serialization of GuavaPlaylist keeps the content field (as
null when absent, as the full entry array when present), and
list_playlist transmits that serialization unprojected, contradicting
the claim that the output is projected to name and identifier only. -/
theorem list_playlist_transmits_content_field :
    (GuavaPlaylist.toJson
        ⟨"Morning", "p1", some [⟨"Song", GuavaContentType.Sound, "c1"⟩]⟩).getField
        "content"
      = some (Json.arr
          [PlaylistContent.toJson ⟨"Song", GuavaContentType.Sound, "c1"⟩])
    ∧ (GuavaPlaylist.toJson ⟨"Empty", "p2", none⟩).getField "content"
      = some Json.null
    ∧ (list_playlist
        [Except.ok
          ⟨"Morning", "p1", some [⟨"Song", GuavaContentType.Sound, "c1"⟩]⟩]).bodyResult
      = some (Json.arr
          [GuavaPlaylist.toJson
            ⟨"Morning", "p1", some [⟨"Song", GuavaContentType.Sound, "c1"⟩]⟩]) :=
  ⟨rfl, rfl, rfl⟩

/-- C3: when the store holds a record whose content_id equals the
requested identifier, and content identifiers are unique across the
store (the catalog invariant), get_hash_from_id succeeds with exactly
the hash field of that record. -/
theorem get_hash_from_id_found (coll : List Content) (r : Content)
    (c : String) (hmem : r ∈ coll) (hid : r.content_id = c)
    (huniq : ∀ r1 ∈ coll, ∀ r2 ∈ coll, r1.content_id = r2.content_id → r1 = r2) :
    get_hash_from_id true coll c = Except.ok r.hash := by
  have hex : ∃ x ∈ coll, (fun c0 => c0.content_id == c) x = true :=
    ⟨r, hmem, by simp [hid]⟩
  have hsome : (coll.find? fun c0 => c0.content_id == c).isSome :=
    List.find?_isSome.mpr hex
  obtain ⟨r2, hr2⟩ := Option.isSome_iff_exists.mp hsome
  have hpr2 : r2.content_id = c := by
    have := List.find?_some hr2
    simpa using this
  have hmem2 : r2 ∈ coll := List.mem_of_find?_eq_some hr2
  have hr2r : r2 = r := huniq r2 hmem2 r hmem (by rw [hpr2, hid])
  simp [get_hash_from_id, find_one, hr2, hr2r]

/-- C3 witness: on a one-record store the hash resolves exactly. -/
theorem get_hash_from_id_found_witness :
    get_hash_from_id true [⟨"c1", GuavaContentType.Sound, "abcd1234"⟩] "c1"
      = Except.ok "abcd1234" :=
  get_hash_from_id_found [⟨"c1", GuavaContentType.Sound, "abcd1234"⟩]
    ⟨"c1", GuavaContentType.Sound, "abcd1234"⟩ "c1"
    (by simp) rfl (by simp)

/-- C4: when no record in the store has the requested content_id, and
the query round trip itself succeeds, get_hash_from_id yields the error
outcome, never a success, in particular never a success carrying an
empty string. -/
theorem get_hash_from_id_not_found (coll : List Content) (c : String)
    (h : ∀ r ∈ coll, r.content_id ≠ c) :
    get_hash_from_id true coll c = Except.error ()
    ∧ ∀ s : String, get_hash_from_id true coll c ≠ Except.ok s := by
  have hnone : (coll.find? fun c0 => c0.content_id == c) = none := by
    rw [List.find?_eq_none]
    intro x hx
    simpa using h x hx
  constructor
  · simp [get_hash_from_id, find_one, hnone]
  · intro s hs
    rw [show get_hash_from_id true coll c = Except.error () by
      simp [get_hash_from_id, find_one, hnone]] at hs
    cases hs

/-- C4 witness: an identifier absent from a concrete store errors. -/
theorem get_hash_from_id_not_found_witness :
    get_hash_from_id true [⟨"c1", GuavaContentType.Sound, "abcd1234"⟩] "unknown"
      = Except.error ()
    ∧ ∀ s : String,
        get_hash_from_id true [⟨"c1", GuavaContentType.Sound, "abcd1234"⟩]
          "unknown" ≠ Except.ok s :=
  get_hash_from_id_not_found [⟨"c1", GuavaContentType.Sound, "abcd1234"⟩]
    "unknown" (by simp)

/-- C5: the playlist-contents operation distinguishes three outcomes:
a failed query maps to a 500 envelope; a found identifier maps to a 200
envelope carrying the full playlist document; a successful query with
zero results maps to a 204 envelope with success true and result the
empty object.  (Handler modelled from the spec; the route is absent
from src.) -/
theorem get_playlist_content_three_outcomes
    (playlists : List GuavaPlaylist) (ident : String) :
    (get_playlist_content false playlists ident).status = 500
    ∧ (∀ p, playlists.find? (fun q => q.identifier == ident) = some p →
        (get_playlist_content true playlists ident).status = 200
        ∧ (get_playlist_content true playlists ident).bodyResult
            = some p.toJson)
    ∧ (playlists.find? (fun q => q.identifier == ident) = none →
        (get_playlist_content true playlists ident).status = 204
        ∧ (get_playlist_content true playlists ident).bodySuccess
            = some (Json.bool true)
        ∧ (get_playlist_content true playlists ident).bodyResult
            = some (Json.obj [])) := by
  refine ⟨rfl, ?_, ?_⟩
  · intro p hp
    refine ⟨by simp [get_playlist_content, hp, status_envelope], ?_⟩
    have hres := bodyResult_envelope_ok 200
      (some (GuavaPlaylist.toJson p)) none rfl
    simpa [get_playlist_content, hp] using hres
  · intro hnone
    refine ⟨by simp [get_playlist_content, hnone, status_envelope], ?_, ?_⟩
    · have hsuc := bodySuccess_envelope 204 none none
      simpa [get_playlist_content, hnone, StatusCode.is_success] using hsuc
    · have hres := bodyResult_envelope_ok 204 none none rfl
      simpa [get_playlist_content, hnone] using hres

/-- C5 witness: the Scenario B input, an existing playlist, and a
failed query, each at a concrete store. -/
theorem get_playlist_content_three_outcomes_witness :
    ((get_playlist_content true [] "missing").status = 204
      ∧ (get_playlist_content true [] "missing").bodySuccess
          = some (Json.bool true)
      ∧ (get_playlist_content true [] "missing").bodyResult
          = some (Json.obj []))
    ∧ (get_playlist_content true [⟨"Morning", "p1", none⟩] "p1").status = 200
    ∧ (get_playlist_content false [] "p1").status = 500 :=
  ⟨(get_playlist_content_three_outcomes [] "missing").2.2 rfl,
   ((get_playlist_content_three_outcomes [⟨"Morning", "p1", none⟩] "p1").2.1
      ⟨"Morning", "p1", none⟩ rfl).1,
   (get_playlist_content_three_outcomes [] "p1").1⟩

/-- C6: both failure causes of the content store, a failed query round
trip and a successful query with no matching record, surface as status
404 at both content endpoints, never as any other status. -/
theorem content_endpoints_collapse_to_404 (b : Bool) (coll : List Content)
    (id : String) (fs : String → Option (List Nat))
    (h : b = false ∨ coll.find? (fun c => c.content_id == id) = none) :
    (get_hash_of_content b coll id).status = 404
    ∧ (download_asset b coll fs id).status = 404 := by
  have herr : get_hash_from_id b coll id = Except.error () := by
    rcases h with h | h
    · subst h; simp [get_hash_from_id, find_one]
    · cases b
      · simp [get_hash_from_id, find_one]
      · simp [get_hash_from_id, find_one, h]
  exact ⟨by simp [get_hash_of_content, herr, status_envelope],
         by simp [download_asset, herr, status_envelope]⟩

/-- C6 witness: a backend failure and a missing record, each on a
concrete store, both give 404 on both content endpoints. -/
theorem content_endpoints_collapse_to_404_witness :
    ((get_hash_of_content false [] "c1").status = 404
      ∧ (download_asset false [] (fun _ => none) "c1").status = 404)
    ∧ ((get_hash_of_content true
          [⟨"c1", GuavaContentType.Sound, "abcd1234"⟩] "nope").status = 404
      ∧ (download_asset true [⟨"c1", GuavaContentType.Sound, "abcd1234"⟩]
          (fun _ => none) "nope").status = 404) :=
  ⟨content_endpoints_collapse_to_404 false [] "c1" (fun _ => none)
      (Or.inl rfl),
   content_endpoints_collapse_to_404 true
      [⟨"c1", GuavaContentType.Sound, "abcd1234"⟩] "nope" (fun _ => none)
      (Or.inr rfl)⟩

/-- C7 counterexample: on a stream that yields one playlist and then
fails, the listing response does not contain the playlist read so far;
its result is the empty array. -/
theorem list_playlist_partial_failure_counterexample :
    (list_playlist
        [Except.ok ⟨"Morning", "p1", none⟩, Except.error ()]).bodyResult
      = some (Json.arr [])
    ∧ (list_playlist
        [Except.ok ⟨"Morning", "p1", none⟩, Except.error ()]).bodyResult
      ≠ some (Json.arr [GuavaPlaylist.toJson ⟨"Morning", "p1", none⟩]) := by
  refine ⟨rfl, ?_⟩
  show some (Json.arr [])
      ≠ some (Json.arr [GuavaPlaylist.toJson ⟨"Morning", "p1", none⟩])
  simp

/-- C7 amended: on any mid-stream read failure (an error element in the
cursor stream), list_playlist still answers success, but with the empty
playlist array, discarding the playlists read before the failure. -/
theorem list_playlist_midstream_failure_returns_empty
    (stream : List (Except Unit GuavaPlaylist))
    (h : Except.error () ∈ stream) :
    (list_playlist stream).status = 200
    ∧ (list_playlist stream).bodySuccess = some (Json.bool true)
    ∧ (list_playlist stream).bodyResult = some (Json.arr []) := by
  have hcol := tryCollect_error_of_mem stream h
  refine ⟨rfl, ?_, ?_⟩
  · have hsuc := bodySuccess_envelope 200 (some (Json.arr [])) none
    simpa [list_playlist, hcol, Except.toOption, StatusCode.is_success]
      using hsuc
  · have hres := bodyResult_envelope_ok 200 (some (Json.arr [])) none rfl
    simpa [list_playlist, hcol, Except.toOption] using hres

/-- C7 amended witness: a concrete stream failing after one item. -/
theorem list_playlist_midstream_failure_returns_empty_witness :
    (list_playlist [Except.ok ⟨"Evening", "p2", none⟩, Except.error ()]).status
        = 200
    ∧ (list_playlist
        [Except.ok ⟨"Evening", "p2", none⟩, Except.error ()]).bodySuccess
        = some (Json.bool true)
    ∧ (list_playlist
        [Except.ok ⟨"Evening", "p2", none⟩, Except.error ()]).bodyResult
        = some (Json.arr []) :=
  list_playlist_midstream_failure_returns_empty
    [Except.ok ⟨"Evening", "p2", none⟩, Except.error ()] (by simp)

/-- C8 counterexample: the wire encoding the serde derive produces for
the Sound variant is the name string, not the numeric ordinal 1, and
decoding the ordinal 1 fails. -/
theorem contentType_wire_encoding_counterexample :
    GuavaContentType.serdeSerialize GuavaContentType.Sound = Json.str "Sound"
    ∧ GuavaContentType.serdeSerialize GuavaContentType.Sound ≠ Json.num 1
    ∧ GuavaContentType.serdeDeserialize (Json.num 1) = Except.error () := by
  refine ⟨rfl, ?_, rfl⟩
  simp [GuavaContentType.serdeSerialize]

/-- C8 amended: the enumeration is closed with exactly None, Sound and
Video; the repr(u32) discriminants are 0, 1, 2 in memory; across the
wire/storage boundary the serde derive encodes the variant name string,
round-tripping exactly, and any value outside that mapping fails
decoding — a successful decode only ever comes from a proper encoding,
so nothing silently defaults to None. -/
theorem contentType_closed_name_encoded :
    (∀ t : GuavaContentType,
        t = GuavaContentType.None ∨ t = GuavaContentType.Sound
          ∨ t = GuavaContentType.Video)
    ∧ GuavaContentType.reprDiscriminant GuavaContentType.None = 0
    ∧ GuavaContentType.reprDiscriminant GuavaContentType.Sound = 1
    ∧ GuavaContentType.reprDiscriminant GuavaContentType.Video = 2
    ∧ (∀ t, GuavaContentType.serdeDeserialize
        (GuavaContentType.serdeSerialize t) = Except.ok t)
    ∧ (∀ j t, GuavaContentType.serdeDeserialize j = Except.ok t →
        j = GuavaContentType.serdeSerialize t) := by
  refine ⟨?_, rfl, rfl, rfl, ?_, ?_⟩
  · intro t; cases t <;> simp
  · intro t; cases t <;> rfl
  · intro j t h
    cases j <;> simp [GuavaContentType.serdeDeserialize] at h
    case str s =>
      split_ifs at h with h1 h2 h3
      · subst h1; cases h; rfl
      · subst h2; cases h; rfl
      · subst h3; cases h; rfl

/-- C8 witness: a successful decode comes from the proper name
encoding, and encoding round-trips, at concrete variants. -/
theorem contentType_closed_name_encoded_witness :
    Json.str "Video"
        = GuavaContentType.serdeSerialize GuavaContentType.Video
    ∧ GuavaContentType.serdeDeserialize
        (GuavaContentType.serdeSerialize GuavaContentType.Sound)
      = Except.ok GuavaContentType.Sound :=
  ⟨contentType_closed_name_encoded.2.2.2.2.2 (Json.str "Video")
      GuavaContentType.Video rfl,
   contentType_closed_name_encoded.2.2.2.2.1 GuavaContentType.Sound⟩

/-- C9: when the id resolves to a hash but no readable file exists at
the asset path (content/ joined with the hash), the download endpoint
answers 404 with the envelope error message file not found. -/
theorem download_asset_missing_file_404 (b : Bool) (coll : List Content)
    (fs : String → Option (List Nat)) (id hash : String)
    (hres : get_hash_from_id b coll id = Except.ok hash)
    (hfs : fs ("content/" ++ hash) = none) :
    (download_asset b coll fs id).status = 404
    ∧ (download_asset b coll fs id).bodyError
        = some (Json.str "file not found") := by
  constructor
  · simp [download_asset, hres, hfs, status_envelope]
  · have herr := bodyError_envelope_fail 404 none (some "file not found") rfl
    simpa [download_asset, hres, hfs] using herr

/-- C9 witness: Scenario C on a concrete store and an empty
filesystem. -/
theorem download_asset_missing_file_404_witness :
    (download_asset true [⟨"c1", GuavaContentType.Sound, "abcd1234"⟩]
        (fun _ => none) "c1").status = 404
    ∧ (download_asset true [⟨"c1", GuavaContentType.Sound, "abcd1234"⟩]
        (fun _ => none) "c1").bodyError
        = some (Json.str "file not found") :=
  download_asset_missing_file_404 true
    [⟨"c1", GuavaContentType.Sound, "abcd1234"⟩] (fun _ => none)
    "c1" "abcd1234" rfl rfl

/-- C10: on the download endpoint, an id with no matching record and an
id whose resolved hash has no openable file produce identical
responses: the same 404 envelope with error message file not found. -/
theorem download_asset_indistinguishable_404 (coll : List Content)
    (fs : String → Option (List Nat)) (id1 id2 hash : String)
    (h1 : get_hash_from_id true coll id1 = Except.error ())
    (h2 : get_hash_from_id true coll id2 = Except.ok hash)
    (hfs : fs ("content/" ++ hash) = none) :
    download_asset true coll fs id1 = download_asset true coll fs id2
    ∧ (download_asset true coll fs id1).status = 404
    ∧ (download_asset true coll fs id1).bodyError
        = some (Json.str "file not found") := by
  refine ⟨?_, ?_, ?_⟩
  · simp [download_asset, h1, h2, hfs]
  · simp [download_asset, h1, status_envelope]
  · have herr := bodyError_envelope_fail 404 none (some "file not found") rfl
    simpa [download_asset, h1] using herr

/-- C10 witness: a missing record and a missing file on a concrete
store give byte-identical 404 responses. -/
theorem download_asset_indistinguishable_404_witness :
    download_asset true [⟨"c1", GuavaContentType.Sound, "abcd1234"⟩]
        (fun _ => none) "nope"
      = download_asset true [⟨"c1", GuavaContentType.Sound, "abcd1234"⟩]
        (fun _ => none) "c1"
    ∧ (download_asset true [⟨"c1", GuavaContentType.Sound, "abcd1234"⟩]
        (fun _ => none) "nope").status = 404
    ∧ (download_asset true [⟨"c1", GuavaContentType.Sound, "abcd1234"⟩]
        (fun _ => none) "nope").bodyError
        = some (Json.str "file not found") :=
  download_asset_indistinguishable_404
    [⟨"c1", GuavaContentType.Sound, "abcd1234"⟩] (fun _ => none)
    "nope" "c1" "abcd1234" rfl rfl rfl

end Guava
